import Mathlib

/- Shallow embedding of the krabhi4/vocalized repository.

The repository consists of a single React component, AudioVisualizer, present
in two variants inside src/src/components/AudioVisualizer.tsx:

* variant 1 (lines 1-364): styles "line" | "circle" | "bar", functions
  startVisualization, stopVisualization, visualize (whose inner closure is
  draw), drawLine, drawCircle, drawBars;
* variant 2 (lines 365-794): styles "straight" | "circle" | "bar", functions
  startRecording, stopRecording, draw (whose inner closure is drawFrame),
  drawStraightLine, drawCircle, drawBars.

Modelling conventions:

* JavaScript number arithmetic in the drawing formulas is embedded as exact
  rational arithmetic; the Cartesian coordinates that go through Math.cos and
  Math.sin live in the reals.
* Audio samples are naturals (Uint8Array entries, 0-255 in the hosts).
* React state setters are modelled as immediate field updates on an explicit
  controller state; a closure captures the values current when it is created,
  while a ref (variant 1 reads visualizationTypeRef.current inside the frame
  callback) reads the live state each time.
* requestAnimationFrame handles and stream identifiers are allocated from a
  counter starting at 1, matching the nonzero handles of the browsers, which
  the truthiness test if (animationRef.current) of variant 1 relies on.
* Observable side effects (console output and writes to the debug string that
  variant 2 renders in its output) are recorded as explicit effect lists.
* The awaited getUserMedia call of each start function is modelled by an
  explicit outcome argument: none means success, some msg means the call threw
  with message msg. The try/catch of the source makes the modelled function
  total in this argument.
-/

namespace Vocalized

/-- Visualization styles of variant 1: the union type "line" | "circle" | "bar". -/
inductive Style1
  | line
  | circle
  | bar
deriving DecidableEq

/-- Visualization styles of variant 2: the union type "straight" | "circle" | "bar". -/
inductive Style2
  | straight
  | circle
  | bar
deriving DecidableEq

/-- Which analyser buffer a frame reads: getByteTimeDomainData or getByteFrequencyData. -/
inductive ReadKind
  | timeDomain
  | freqDomain
deriving DecidableEq

/-- Observable side effects of the controller: console output, and writes to
the debug string state that variant 2 binds into its rendered output. Variant 1
declares no debug string state at all, so it can only emit console effects. -/
inductive UEffect
  | consoleError (msg : String)
  | consoleLog (msg : String)
  | setDebugInfo (msg : String)
deriving DecidableEq

/-- Strings surfaced to the presentation layer by a list of effects: only the
setDebugInfo writes reach the rendered debug element of the component; console
output stays on the developer console. -/
def surfacedDiagnostics (fx : List UEffect) : List String :=
  fx.filterMap fun e =>
    match e with
    | UEffect.setDebugInfo m => some m
    | _ => none

/-- Total width of a list of painted bars plus the gaps between consecutive
bars, for a uniform gap: the quantity bounded by the spec sentence about the
sum of all bar widths plus gaps. Each bar triple is (x, barWidth, barHeight). -/
def widthsPlusGaps (gap : ℚ) (bs : List (ℚ × ℚ × ℚ)) : ℚ :=
  (bs.map fun b => b.2.1).sum + gap * ((bs.length - 1 : ℕ) : ℚ)

/-- Observable trace of one frame callback: which analyser buffer it read,
which transform it dispatched to, the geometry handed to that transform,
whether it queued a next frame, the exception it let escape (none when the
callback returned normally), and the effects it emitted. -/
structure FrameTrace (σ : Type) where
  readKind : Option ReadKind
  dispatched : Option σ
  geometryUsed : Option (ℚ × ℚ)
  scheduledNext : Bool
  propagated : Option String
  effects : List UEffect
deriving DecidableEq

namespace V1

/-- Per-sample y coordinate of drawLine (variant 1, lines 176-180):
v = dataArray[i] / 255 and y = (height / 2) * (1 - v * 2) + height / 2. -/
def lineY (s : ℕ) (height : ℚ) : ℚ :=
  height / 2 * (1 - (s : ℚ) / 255 * 2) + height / 2

/-- Horizontal step of drawLine (variant 1, line 173): sliceWidth = width / bufferLength. -/
def sliceWidth (width : ℚ) (n : ℕ) : ℚ :=
  width / (n : ℚ)

/-- Path stroked by drawLine (variant 1, lines 162-193): point i sits at
x = i * sliceWidth and y = lineY of the i-th sample. -/
def drawLine (data : List ℕ) (width height : ℚ) : List (ℚ × ℚ) :=
  (List.range data.length).map fun (i : ℕ) =>
    ((i : ℚ) * sliceWidth width data.length, lineY (data.getD i 0) height)

/-- Base circle radius of drawCircle (variant 1, line 204):
radius = min(width, height) / 4. -/
def radius (width height : ℚ) : ℚ :=
  min width height / 4

/-- Radius of the data point for sample s in drawCircle (variant 1, lines
214-216): amplitude = s / 255 and pointRadius = radius + amplitude * 50. -/
def pointRadius (s : ℕ) (width height : ℚ) : ℚ :=
  radius width height + (s : ℚ) / 255 * 50

/-- x coordinate of the data point for sample s at index i of n in drawCircle
(variant 1, lines 215-218): angle = (i / n) * 2 * pi and
x = centerX + cos(angle) * pointRadius. -/
noncomputable def pointX (s i n : ℕ) (width height : ℚ) : ℝ :=
  (width : ℝ) / 2 + Real.cos ((i : ℝ) / (n : ℝ) * (2 * Real.pi)) * (pointRadius s width height : ℝ)

/-- Bar width of drawBars (variant 1, line 251): (width / bufferLength) * 2.5. -/
def barWidth (width : ℚ) (n : ℕ) : ℚ :=
  width / (n : ℚ) * (5 / 2)

/-- Loop body of drawBars (variant 1, lines 254-262): paint a bar at the
current x with height (s / 255) * height, advance x by barWidth + 1, and
break out of the loop once x exceeds width, so the break is checked only
after a bar has been painted. Each emitted triple is (x, barWidth, barHeight). -/
def drawBarsAux (bw width height : ℚ) : List ℕ → ℚ → List (ℚ × ℚ × ℚ)
  | [], _ => []
  | s :: rest, x =>
    if width < x + bw + 1 then [(x, bw, (s : ℚ) / 255 * height)]
    else (x, bw, (s : ℚ) / 255 * height) :: drawBarsAux bw width height rest (x + bw + 1)

/-- Bars painted by drawBars (variant 1, lines 244-263), starting at x = 0. -/
def drawBars (data : List ℕ) (width height : ℚ) : List (ℚ × ℚ × ℚ) :=
  drawBarsAux (barWidth width data.length) width height data 0

end V1

namespace V2

/-- Per-sample y coordinate of drawStraightLine (variant 2, lines 620-625):
percent = dataArray[i] / 255 and y = centerY - percent * (height / 2). -/
def lineY (s : ℕ) (height : ℚ) : ℚ :=
  height / 2 - (s : ℚ) / 255 * (height / 2)

/-- Path stroked by drawStraightLine (variant 2, lines 610-636): point i sits
at x = i * (width / n) and y = lineY of the i-th sample. -/
def drawStraightLine (data : List ℕ) (width height : ℚ) : List (ℚ × ℚ) :=
  (List.range data.length).map fun (i : ℕ) =>
    ((i : ℚ) * (width / (data.length : ℚ)), lineY (data.getD i 0) height)

/-- Base radius of drawCircle (variant 2, lines 650-652):
baseRadius = min(centerX, centerY) * 0.8. -/
def baseRadius (width height : ℚ) : ℚ :=
  min (width / 2) (height / 2) * (4 / 5)

/-- Plotted radius for sample s in drawCircle (variant 2, lines 667-669):
percent = s / 255 and radius = baseRadius * (1 + percent * 0.5). -/
def radius (s : ℕ) (width height : ℚ) : ℚ :=
  baseRadius width height * (1 + (s : ℚ) / 255 * (1 / 2))

/-- x coordinate of the plotted point for sample s at index i of n in
drawCircle (variant 2, lines 668-671): angle = i * 2 * pi / n and
x = centerX + radius * cos(angle). -/
noncomputable def pointX (s i n : ℕ) (width height : ℚ) : ℝ :=
  (width : ℝ) / 2 + (radius s width height : ℝ) * Real.cos ((i : ℝ) * (2 * Real.pi) / (n : ℝ))

/-- Bar width of drawBars (variant 2, line 690): (width / barCount) * 0.8. -/
def barWidth (width : ℚ) (n : ℕ) : ℚ :=
  width / (n : ℚ) * (4 / 5)

/-- Gap between bars of drawBars (variant 2, line 691): (width / barCount) * 0.2. -/
def barSpacing (width : ℚ) (n : ℕ) : ℚ :=
  width / (n : ℚ) * (1 / 5)

/-- Bars painted by drawBars (variant 2, lines 684-708): bar i sits at
x = i * (barWidth + barSpacing) with height (s / 255) * height, and every bar
of the buffer is painted. Each triple is (x, barWidth, barHeight). -/
def drawBars (data : List ℕ) (width height : ℚ) : List (ℚ × ℚ × ℚ) :=
  (List.range data.length).map fun (i : ℕ) =>
    ((i : ℚ) * (barWidth width data.length + barSpacing width data.length),
      barWidth width data.length,
      (data.getD i 0 : ℚ) / 255 * height)

end V2

namespace V1

/-- Controller state of variant 1: the refs and state hooks of lines 10-20,
together with instrumentation. opens counts capture streams acquired from
getUserMedia and closes counts streams whose tracks were stopped; pending is
the frame request currently queued in the host scheduler; nextId allocates
fresh stream and frame handles, kept positive since the browsers never hand
out handle 0. -/
structure State where
  audioContext : Bool
  analyser : Option ℕ
  source : Option ℕ
  stream : Option ℕ
  animation : ℕ
  isRecording : Bool
  styleRef : Style1
  micSelected : Bool
  opens : ℕ
  closes : ℕ
  pending : Option ℕ
  nextId : ℕ
deriving DecidableEq

/-- stopVisualization (variant 1, lines 94-112): cancel the animation frame
when animationRef.current is truthy (the ref itself is not reset), disconnect
and null the source, stop the tracks and null the stream, clear isRecording. -/
def stopVisualization (s : State) : State :=
  { s with
    pending := if s.animation = 0 then s.pending else none,
    source := none,
    closes := if s.stream.isSome then s.closes + 1 else s.closes,
    stream := none,
    isRecording := false }

/-- startVisualization (variant 1, lines 57-92). With no microphone selected
it returns at once. Otherwise it creates the audio context if absent and
awaits getUserMedia; on a throw the catch block only logs to the console, on
success the stream, analyser and source are stored over whatever the refs
held before (the function contains no stop call and closes nothing),
isRecording is set and visualize runs, whose first draw call queues the first
frame. -/
def startVisualization (failure : Option String) (s : State) : State × List UEffect :=
  if ¬ s.micSelected then (s, [])
  else
    let s0 := { s with audioContext := true }
    match failure with
    | some _ => (s0, [UEffect.consoleError "Error starting visualization:"])
    | none =>
      let sid := s0.nextId
      let h := s0.nextId + 1
      ({ s0 with
          opens := s0.opens + 1,
          stream := some sid,
          analyser := some sid,
          source := some sid,
          isRecording := true,
          animation := h,
          pending := some h,
          nextId := s0.nextId + 2 }, [])

/-- setVisualizationType of variant 1 together with the useEffect of lines
23-25 that copies the new style into visualizationTypeRef, so the ref is live
for the next frame callback. Nothing else of the state is touched. -/
def setVisualizationType (st : Style1) (s : State) : State :=
  { s with styleRef := st }

/-- Values captured by the draw closure created in visualize (variant 1,
lines 114-127): the canvas width and height, read once before the loop
starts, and the buffer length fixed by the analyser. -/
structure FrameEnv where
  width : ℚ
  height : ℚ
  bufferLength : ℕ
deriving DecidableEq

/-- visualize (variant 1, lines 114-160): reads canvas.width and
canvas.height once and closes over them for every subsequent frame. -/
def visualize (geomAtStart : ℚ × ℚ) (n : ℕ) : FrameEnv :=
  { width := geomAtStart.1, height := geomAtStart.2, bufferLength := n }

/-- draw (variant 1, lines 130-157), one frame callback. It first queues the
next frame (line 131), then reads visualizationTypeRef.current, reads the
frequency buffer for the bar style and the time-domain buffer otherwise,
paints the background with the captured width and height and dispatches to
the transform of the current style. There is no try/catch: a transform
exception (the fault argument) escapes the callback with the next frame
already queued. The current canvas geometry curGeom is available from the
host but never read by the callback. -/
def draw (env : FrameEnv) (curGeom : ℚ × ℚ) (fault : Option String) (s : State) :
    State × FrameTrace Style1 :=
  let h := s.nextId
  let s1 := { s with animation := h, pending := some h, nextId := s.nextId + 1 }
  let st := s1.styleRef
  let rk := if st = Style1.bar then ReadKind.freqDomain else ReadKind.timeDomain
  (s1,
    { readKind := some rk,
      dispatched := some st,
      geometryUsed := some (env.width, env.height),
      scheduledNext := true,
      propagated := fault,
      effects := [] })

/-- Atomic interactions with the variant 1 controller. -/
inductive Op
  | startOk
  | startFail (msg : String)
  | stop
  | setStyle (st : Style1)
  | frame (env : FrameEnv) (g : ℚ × ℚ) (fault : Option String)

/-- One controller step of variant 1. -/
def step (s : State) (op : Op) : State :=
  match op with
  | Op.startOk => (startVisualization none s).1
  | Op.startFail m => (startVisualization (some m) s).1
  | Op.stop => stopVisualization s
  | Op.setStyle st => setVisualizationType st s
  | Op.frame env g f => (draw env g f s).1

/-- Initial state of variant 1, with a microphone selected by the device
enumeration effect of lines 28-55. -/
def init : State :=
  { audioContext := false, analyser := none, source := none, stream := none,
    animation := 0, isRecording := false, styleRef := Style1.line,
    micSelected := true, opens := 0, closes := 0, pending := none, nextId := 1 }

/-- Controller state of variant 1 after a sequence of interactions. -/
def run (ops : List Op) : State :=
  List.foldl step init ops

/-- Session view of a variant 1 state: recording flag, pending frame request,
open stream and connected source - the end state named by the spec. -/
def sessionView (s : State) : Bool × Option ℕ × Option ℕ × Option ℕ :=
  (s.isRecording, s.pending, s.stream, s.source)

end V1

namespace V2

/-- Controller state of variant 2: the refs and state hooks of lines 385-395,
with the same instrumentation fields as the variant 1 state. -/
structure State where
  audioContext : Option ℕ
  analyser : Option ℕ
  isRecording : Bool
  style : Style2
  deviceSelected : Bool
  debugInfo : String
  animationFrameId : Option ℕ
  stream : Option ℕ
  source : Option ℕ
  opens : ℕ
  closes : ℕ
  pending : Option ℕ
  nextId : ℕ
deriving DecidableEq

/-- stopRecording (variant 2, lines 490-524): cancel and null the animation
frame id, stop the tracks and null the stream, disconnect and null the
source, close and null the audio context, null the analyser, clear
isRecording, write the debug string and repaint the canvas background. -/
def stopRecording (s : State) : State :=
  { s with
    pending := if s.animationFrameId.isSome then none else s.pending,
    animationFrameId := none,
    closes := if s.stream.isSome then s.closes + 1 else s.closes,
    stream := none,
    source := none,
    audioContext := none,
    analyser := none,
    isRecording := false,
    debugInfo := "Recording stopped" }

/-- startRecording (variant 2, lines 445-489). With no device selected it
only writes the debug string. Otherwise it first calls stopRecording, then
creates a new audio context and awaits getUserMedia. On success it stores the
stream, source, analyser and context, sets isRecording and the debug string,
and draw queues the first frame. On a throw the catch block logs to the
console, writes the error into the debug string and calls stopRecording
again, whose own debug write lands last (the context created before the
throw is never stored and leaks). The effect list records the console and
debug writes in program order. -/
def startRecording (failure : Option String) (s : State) : State × List UEffect :=
  if ¬ s.deviceSelected then
    ({ s with debugInfo := "No device selected" }, [UEffect.setDebugInfo "No device selected"])
  else
    let s0 := stopRecording s
    let cid := s0.nextId
    let s1 := { s0 with nextId := s0.nextId + 1 }
    match failure with
    | some msg =>
      (stopRecording { s1 with debugInfo := "Error starting recording: " ++ msg },
        [UEffect.setDebugInfo "Recording stopped",
          UEffect.consoleError "Error starting recording:",
          UEffect.setDebugInfo ("Error starting recording: " ++ msg),
          UEffect.setDebugInfo "Recording stopped"])
    | none =>
      let sid := s1.nextId
      let h := s1.nextId + 1
      ({ s1 with
          audioContext := some cid,
          opens := s1.opens + 1,
          stream := some sid,
          source := some sid,
          analyser := some sid,
          isRecording := true,
          debugInfo := "Recording started",
          animationFrameId := some h,
          pending := some h,
          nextId := s1.nextId + 2 },
        [UEffect.setDebugInfo "Recording stopped",
          UEffect.setDebugInfo "Recording started"])

/-- setVisualizationType of variant 2: a plain state write; a drawFrame
closure already running keeps the style it captured. -/
def setVisualizationType (st : Style2) (s : State) : State :=
  { s with style := st }

/-- Values captured when draw creates the drawFrame closure (variant 2,
lines 525-552): the bounding rectangle read once, and the visualizationType
and isRecording values of the render in which the closure was created. -/
structure FrameEnv where
  style : Style2
  recording : Bool
  width : ℚ
  height : ℚ
deriving DecidableEq

/-- draw (variant 2, lines 525-609): reads getBoundingClientRect once and
closes over it together with the current style and recording flag. -/
def draw (rectAtStart : ℚ × ℚ) (st : Style2) (recording : Bool) : FrameEnv :=
  { style := st, recording := recording, width := rectAtStart.1, height := rectAtStart.2 }

/-- drawFrame (variant 2, lines 553-606), one frame callback. When the
captured recording flag is false it cancels the animation frame id and
returns. Otherwise it always reads the frequency buffer (line 564, with no
branch on the style), paints the background and dispatches on the captured
style inside a try/catch: a transform exception is caught, logged to the
console and answered with stopRecording, without queueing a next frame. On a
normal frame the next frame is queued and the telemetry line is written to
the debug string (modelled by the constant string "frame telemetry").
The current canvas geometry curGeom is never read by the callback. -/
def drawFrame (env : FrameEnv) (curGeom : ℚ × ℚ) (fault : Option String) (s : State) :
    State × FrameTrace Style2 :=
  if ¬ env.recording then
    ({ s with
        pending := if s.animationFrameId.isSome then none else s.pending,
        animationFrameId := none },
      { readKind := none, dispatched := none, geometryUsed := none,
        scheduledNext := false, propagated := none,
        effects := [UEffect.consoleLog "Recording stopped, cleaning up animation frame"] })
  else
    match fault with
    | some _ =>
      (stopRecording s,
        { readKind := some ReadKind.freqDomain,
          dispatched := some env.style,
          geometryUsed := some (env.width, env.height),
          scheduledNext := false,
          propagated := none,
          effects := [UEffect.consoleError "Error in visualization:",
            UEffect.setDebugInfo "Recording stopped"] })
    | none =>
      let h := s.nextId
      ({ s with
          animationFrameId := some h,
          pending := some h,
          nextId := s.nextId + 1,
          debugInfo := "frame telemetry" },
        { readKind := some ReadKind.freqDomain,
          dispatched := some env.style,
          geometryUsed := some (env.width, env.height),
          scheduledNext := true,
          propagated := none,
          effects := [UEffect.setDebugInfo "frame telemetry"] })

/-- Atomic interactions with the variant 2 controller. -/
inductive Op
  | startOk
  | startFail (msg : String)
  | stop
  | setStyle (st : Style2)
  | frame (env : FrameEnv) (g : ℚ × ℚ) (fault : Option String)

/-- One controller step of variant 2. -/
def step (s : State) (op : Op) : State :=
  match op with
  | Op.startOk => (startRecording none s).1
  | Op.startFail m => (startRecording (some m) s).1
  | Op.stop => stopRecording s
  | Op.setStyle st => setVisualizationType st s
  | Op.frame env g f => (drawFrame env g f s).1

/-- Initial state of variant 2, with a device selected by the enumeration
effect of lines 398-436. -/
def init : State :=
  { audioContext := none, analyser := none, isRecording := false,
    style := Style2.straight, deviceSelected := true, debugInfo := "",
    animationFrameId := none, stream := none, source := none,
    opens := 0, closes := 0, pending := none, nextId := 1 }

/-- Controller state of variant 2 after a sequence of interactions. -/
def run (ops : List Op) : State :=
  List.foldl step init ops

/-- Session view of a variant 2 state: recording flag, pending frame request,
open stream and connected source - the end state named by the spec. -/
def sessionView (s : State) : Bool × Option ℕ × Option ℕ × Option ℕ :=
  (s.isRecording, s.pending, s.stream, s.source)

/-- Session accounting invariant of variant 2: streams opened equal streams
closed plus one exactly when recording, and a stream is stored exactly when
recording. -/
def Inv (s : State) : Prop :=
  s.opens = s.closes + (if s.isRecording then 1 else 0) ∧
  s.stream.isSome = s.isRecording

end V2

/-- Reading a replicated list below its length yields the replicated value. -/
theorem getD_replicate_of_lt (n i a d : ℕ) (hi : i < n) :
    (List.replicate n a).getD i d = a := by
  induction n generalizing i with
  | zero => omega
  | succ n ih =>
    cases i with
    | zero => simp [List.replicate]
    | succ i => simpa [List.replicate] using ih i (by omega)

/-- Closed form of the variant 1 amplitude-to-y mapping. -/
theorem v1_lineY_eq (s : ℕ) (h : ℚ) : V1.lineY s h = h - (s : ℚ) * h / 255 := by
  unfold V1.lineY; ring

/-- Closed form of the variant 2 amplitude-to-y mapping. -/
theorem v2_lineY_eq (s : ℕ) (h : ℚ) : V2.lineY s h = h / 2 - (s : ℚ) * h / 510 := by
  unfold V2.lineY; ring

/-- C1 (amended): for every positive height, the amplitude-to-y mapping of
both variants is linear and strictly decreasing in the sample value. In
variant 1 (drawLine) the samples 0 and 255 map to the two vertical extremes
(height and 0), but the mid-value 128 maps to 127 / 255 of the height, off
the exact vertical center by height / 510, and a buffer of all-128 samples
maps to a single horizontal path at y = 127 * height / 255 rather than at
height / 2. In variant 2 (drawStraightLine) the sample 0 maps to the vertical
center and 255 to the top, so only the upper half of the surface is used, and
128 maps to 127 * height / 510. -/
theorem c1_line_mapping (height : ℚ) (hpos : 0 < height) :
    (∀ s t : ℕ, s < t → V1.lineY t height < V1.lineY s height) ∧
    V1.lineY 0 height = height ∧
    V1.lineY 255 height = 0 ∧
    V1.lineY 128 height = 127 * height / 255 ∧
    (∀ (n : ℕ) (width : ℚ), ∀ p ∈ V1.drawLine (List.replicate n 128) width height,
      p.2 = 127 * height / 255) ∧
    (∀ s t : ℕ, s < t → V2.lineY t height < V2.lineY s height) ∧
    V2.lineY 0 height = height / 2 ∧
    V2.lineY 255 height = 0 ∧
    V2.lineY 128 height = 127 * height / 510 := by
  refine ⟨?_, ?_, ?_, ?_, ?_, ?_, ?_, ?_, ?_⟩
  · intro s t hst
    rw [v1_lineY_eq, v1_lineY_eq]
    have hc : (s : ℚ) < (t : ℚ) := by exact_mod_cast hst
    have h2 : (s : ℚ) * height < (t : ℚ) * height := mul_lt_mul_of_pos_right hc hpos
    linarith
  · rw [v1_lineY_eq]; norm_num
  · rw [v1_lineY_eq]; ring
  · rw [v1_lineY_eq]; ring
  · intro n width p hp
    simp only [V1.drawLine, List.mem_map, List.mem_range, List.length_replicate] at hp
    obtain ⟨i, hi, rfl⟩ := hp
    simp only [getD_replicate_of_lt n i 128 0 hi]
    rw [v1_lineY_eq]; ring
  · intro s t hst
    rw [v2_lineY_eq, v2_lineY_eq]
    have hc : (s : ℚ) < (t : ℚ) := by exact_mod_cast hst
    have h2 : (s : ℚ) * height < (t : ℚ) * height := mul_lt_mul_of_pos_right hc hpos
    linarith
  · rw [v2_lineY_eq]; norm_num
  · rw [v2_lineY_eq]; ring
  · rw [v2_lineY_eq]; ring

/-- C1 witness: the amended mapping facts hold on a concrete 510 pixel high
surface. -/
theorem c1_line_mapping_witness :
    V1.lineY 128 510 = 127 * 510 / 255 ∧ V2.lineY 0 510 = 510 / 2 :=
  ⟨(c1_line_mapping 510 (by norm_num)).2.2.2.1,
    (c1_line_mapping 510 (by norm_num)).2.2.2.2.2.2.1⟩

/-- C1 counterexample: drawLine maps the sample 128 to y = 254 on a 510 pixel
high surface whose vertical center is 255, so the mid-value does not land
exactly on height / 2. -/
theorem c1_midvalue_not_center : V1.lineY 128 510 ≠ 510 / 2 := by
  norm_num [V1.lineY]

/-- C2 (amended): in variant 2 the plotted radius is
baseRadius * (1 + v * k) with the fixed constant k = 1/2: for a geometry
with nonnegative dimensions every plotted radius is at least baseRadius, an
all-zero buffer puts every point at exactly baseRadius and an all-255 buffer
at exactly baseRadius * (1 + 1/2). In variant 1 the radius is additive,
radius + v * 50, rather than a fixed multiple of the base: it is still never
below the base radius, an all-zero buffer yields exactly the base radius,
and an all-255 buffer yields base radius + 50. -/
theorem c2_radial_radius (width height : ℚ) (hw : 0 ≤ width) (hh : 0 ≤ height) :
    (∀ s : ℕ, V2.baseRadius width height ≤ V2.radius s width height) ∧
    V2.radius 0 width height = V2.baseRadius width height ∧
    V2.radius 255 width height = V2.baseRadius width height * (1 + 1 / 2) ∧
    (∀ s : ℕ, V1.radius width height ≤ V1.pointRadius s width height) ∧
    V1.pointRadius 0 width height = V1.radius width height ∧
    V1.pointRadius 255 width height = V1.radius width height + 50 := by
  have hb : 0 ≤ V2.baseRadius width height := by
    unfold V2.baseRadius
    have hmin : (0 : ℚ) ≤ min (width / 2) (height / 2) :=
      le_min (by linarith) (by linarith)
    nlinarith
  refine ⟨?_, ?_, ?_, ?_, ?_, ?_⟩
  · intro s
    unfold V2.radius
    nlinarith [mul_nonneg hb (show (0 : ℚ) ≤ (s : ℚ) / 255 * (1 / 2) by positivity)]
  · unfold V2.radius; norm_num
  · unfold V2.radius; norm_num
  · intro s
    unfold V1.pointRadius
    have hs : (0 : ℚ) ≤ (s : ℚ) / 255 * 50 := by positivity
    linarith
  · unfold V1.pointRadius; norm_num
  · unfold V1.pointRadius; norm_num

/-- C2 witness: the amended radius facts hold on a concrete 400 by 200
geometry. -/
theorem c2_radial_radius_witness :
    V2.radius 0 400 200 = V2.baseRadius 400 200 ∧
    V1.pointRadius 255 400 200 = V1.radius 400 200 + 50 :=
  ⟨(c2_radial_radius 400 200 (by norm_num) (by norm_num)).2.1,
    (c2_radial_radius 400 200 (by norm_num) (by norm_num)).2.2.2.2.2⟩

/-- C2 counterexample: in variant 1 no fixed scale constant k satisfies
pointRadius = radius * (1 + v * k): the 255 sample forces k = 1/2 on a
400 by 400 surface (radius 100, point radius 150) but k = 1/4 on an
800 by 800 surface (radius 200, point radius 250). -/
theorem c2_no_fixed_scale_constant :
    ¬ ∃ k : ℚ, ∀ (s : ℕ) (width height : ℚ),
        V1.pointRadius s width height =
          V1.radius width height * (1 + (s : ℚ) / 255 * k) := by
  rintro ⟨k, hk⟩
  have h1 := hk 255 400 400
  have h2 := hk 255 800 800
  norm_num [V1.pointRadius, V1.radius] at h1 h2
  linarith

/-- Every bar painted by the variant 1 loop body sits at a nonnegative
x-position not exceeding the width, provided the loop starts inside the
surface: the break of line 261 fires before any bar at x > width is painted. -/
theorem v1_drawBarsAux_x_bounds (bw width height : ℚ) (hbw : 0 ≤ bw) :
    ∀ (l : List ℕ) (x : ℚ), 0 ≤ x → x ≤ width →
      ∀ b ∈ V1.drawBarsAux bw width height l x, 0 ≤ b.1 ∧ b.1 ≤ width := by
  intro l
  induction l with
  | nil =>
    intro x _ _ b hb
    simp [V1.drawBarsAux] at hb
  | cons s rest ih =>
    intro x hx0 hxw b hb
    rcases lt_or_le width (x + bw + 1) with hcond | hcond
    · rw [V1.drawBarsAux, if_pos hcond] at hb
      simp only [List.mem_singleton] at hb
      subst hb
      exact ⟨hx0, hxw⟩
    · rw [V1.drawBarsAux, if_neg (not_lt.mpr hcond)] at hb
      rcases List.mem_cons.mp hb with hb | hb
      · subst hb
        exact ⟨hx0, hxw⟩
      · exact ih (x + bw + 1) (by linarith) hcond b hb

/-- C3 (amended): in both variants no bar is painted at a negative or
off-surface x-position, and any bar whose x-position would exceed the
available width is skipped (in variant 1 through the break of line 261, in
variant 2 because the positions never reach the width). In variant 2 the sum
of all bar widths plus the gaps between them stays within the geometry
width. In variant 1 that sum is not so bounded: the last painted bar may
start on the surface and extend past the right edge, so the claim keeps only
the x-position bound there. -/
theorem c3_bars_layout (data : List ℕ) (width height : ℚ) (hw : 0 ≤ width) :
    (∀ b ∈ V1.drawBars data width height, 0 ≤ b.1 ∧ b.1 ≤ width) ∧
    widthsPlusGaps (V2.barSpacing width data.length) (V2.drawBars data width height)
      ≤ width ∧
    (∀ b ∈ V2.drawBars data width height, 0 ≤ b.1 ∧ b.1 ≤ width) := by
  have hn0 : (0 : ℚ) ≤ (data.length : ℚ) := Nat.cast_nonneg _
  have hbw1 : 0 ≤ V1.barWidth width data.length := by
    unfold V1.barWidth
    have := div_nonneg hw hn0
    nlinarith
  refine ⟨?_, ?_, ?_⟩
  · intro b hb
    exact v1_drawBarsAux_x_bounds (V1.barWidth width data.length) width height hbw1
      data 0 le_rfl hw b hb
  · rcases Nat.eq_zero_or_pos data.length with h0 | h1
    · simp [V2.drawBars, widthsPlusGaps, h0, hw]
    · have hc0 : (0 : ℚ) < (data.length : ℚ) := by exact_mod_cast h1
      have hq0 : (0 : ℚ) ≤ width / (data.length : ℚ) := div_nonneg hw hc0.le
      have hqn : width / (data.length : ℚ) * (data.length : ℚ) = width :=
        div_mul_cancel₀ width (ne_of_gt hc0)
      have hmap : ((V2.drawBars data width height).map fun b => b.2.1)
          = List.replicate data.length (V2.barWidth width data.length) := by
        simp [V2.drawBars, List.map_map, Function.comp_def, List.map_const']
      have hlen : (V2.drawBars data width height).length = data.length := by
        simp [V2.drawBars]
      have hcast : ((data.length - 1 : ℕ) : ℚ) = (data.length : ℚ) - 1 := by
        exact_mod_cast Nat.cast_sub h1
      rw [widthsPlusGaps, hmap, hlen, hcast, List.sum_replicate, nsmul_eq_mul]
      unfold V2.barWidth V2.barSpacing
      nlinarith
  · intro b hb
    simp only [V2.drawBars, List.mem_map, List.mem_range] at hb
    obtain ⟨i, hi, rfl⟩ := hb
    have hc0 : (0 : ℚ) < (data.length : ℚ) := by
      exact_mod_cast Nat.pos_of_ne_zero (by omega)
    have hq0 : (0 : ℚ) ≤ width / (data.length : ℚ) := div_nonneg hw hc0.le
    have hqn : width / (data.length : ℚ) * (data.length : ℚ) = width :=
      div_mul_cancel₀ width (ne_of_gt hc0)
    have hi1 : (i : ℚ) ≤ (data.length : ℚ) - 1 := by
      have : (i : ℚ) + 1 ≤ (data.length : ℚ) := by exact_mod_cast hi
      linarith
    have hi0 : (0 : ℚ) ≤ (i : ℚ) := Nat.cast_nonneg i
    constructor
    · unfold V2.barWidth V2.barSpacing
      nlinarith
    · unfold V2.barWidth V2.barSpacing
      nlinarith

/-- C3 witness: the amended layout facts hold on a concrete buffer of four
255 samples over a 100 by 200 geometry. -/
theorem c3_bars_layout_witness :
    widthsPlusGaps (V2.barSpacing 100 ([255, 255, 255, 255] : List ℕ).length)
        (V2.drawBars [255, 255, 255, 255] 100 200) ≤ 100 :=
  (c3_bars_layout [255, 255, 255, 255] 100 200 (by norm_num)).2.1

/-- C3 counterexample: in variant 1, on a 100 pixel wide geometry with four
255 samples, two bars of width 62.5 separated by a gap of 1 are painted, so
the sum of painted bar widths plus gaps is 126 and exceeds the geometry
width. -/
theorem c3_extent_exceeds_width :
    100 < widthsPlusGaps 1 (V1.drawBars [255, 255, 255, 255] 100 200) := by
  norm_num [V1.drawBars, V1.drawBarsAux, V1.barWidth, widthsPlusGaps]

/-- C10: the Radial transforms emit points outside the surface rectangle: on
a 400 by 400 surface, variant 2 plots the 255-valued sample of index 0 at
x = 200 + 240 = 440 > 400, and on a 100 by 100 surface variant 1 plots the
255-valued sample of index 0 at x = 50 + 75 = 125 > 100. -/
theorem c10_radial_offsurface :
    (400 : ℝ) < V2.pointX 255 0 1024 400 400 ∧
    (100 : ℝ) < V1.pointX 255 0 1024 100 100 := by
  constructor
  · have hr : V2.radius 255 400 400 = 240 := by
      norm_num [V2.radius, V2.baseRadius]
    unfold V2.pointX
    rw [hr]
    norm_num [Real.cos_zero]
  · have hr : V1.pointRadius 255 100 100 = 75 := by
      norm_num [V1.pointRadius, V1.radius]
    unfold V1.pointX
    rw [hr]
    norm_num [Real.cos_zero]

/-- One step of the variant 2 controller preserves the session accounting
invariant: stopRecording settles the books, startRecording closes the
previous session before opening the new one, and a faulting frame closes
through stopRecording. -/
theorem v2_inv_step (s : V2.State) (op : V2.Op) (h : V2.Inv s) :
    V2.Inv (V2.step s op) := by
  obtain ⟨h1, h2⟩ := h
  cases op with
  | startOk =>
    show V2.Inv (V2.startRecording none s).1
    unfold V2.startRecording V2.stopRecording
    cases hd : s.deviceSelected <;>
      cases hs : s.stream <;> cases hr : s.isRecording <;>
        simp_all [V2.Inv]
  | startFail msg =>
    show V2.Inv (V2.startRecording (some msg) s).1
    unfold V2.startRecording V2.stopRecording
    cases hd : s.deviceSelected <;>
      cases hs : s.stream <;> cases hr : s.isRecording <;>
        simp_all [V2.Inv]
  | stop =>
    show V2.Inv (V2.stopRecording s)
    unfold V2.stopRecording
    cases hs : s.stream <;> cases hr : s.isRecording <;>
      simp_all [V2.Inv]
  | setStyle st =>
    exact ⟨h1, h2⟩
  | frame env g f =>
    show V2.Inv (V2.drawFrame env g f s).1
    unfold V2.drawFrame V2.stopRecording
    cases he : env.recording <;> cases f <;>
      cases hs : s.stream <;> cases hr : s.isRecording <;>
        simp_all [V2.Inv]

/-- The session accounting invariant propagates along any interaction
sequence of the variant 2 controller. -/
theorem v2_inv_foldl (ops : List V2.Op) :
    ∀ s : V2.State, V2.Inv s → V2.Inv (List.foldl V2.step s ops) := by
  induction ops with
  | nil => intro s h; simpa using h
  | cons op rest ih =>
    intro s h
    simpa using ih (V2.step s op) (v2_inv_step s op h)

/-- C5 (amended): in variant 2, startRecording closes any previously open
session before opening a new one, and at every state reachable through the
controller the number of opened capture streams equals the number of closed
ones, plus one exactly when currently recording, with the stored stream
present exactly when recording. In variant 1, startVisualization contains no
stop call: it never closes the prior stream, so the invariant fails there
after a second start. -/
theorem c5_session_invariant :
    (∀ ops : List V2.Op, V2.Inv (V2.run ops)) ∧
    (∀ s : V1.State, (V1.startVisualization none s).1.closes = s.closes) := by
  constructor
  · intro ops
    exact v2_inv_foldl ops V2.init ⟨rfl, rfl⟩
  · intro s
    unfold V1.startVisualization
    cases hm : s.micSelected <;> simp [hm]

/-- C5 counterexample: two successive successful startVisualization calls of
variant 1 leave the controller recording with two streams opened and none
closed, violating opens = closes + 1. -/
theorem c5_double_start_breaks_invariant :
    (V1.run [V1.Op.startOk, V1.Op.startOk]).isRecording = true ∧
    (V1.run [V1.Op.startOk, V1.Op.startOk]).opens ≠
      (V1.run [V1.Op.startOk, V1.Op.startOk]).closes + 1 := by
  decide

/-- C6: stop is idempotent in both variants. Applying stopVisualization or
stopRecording twice yields literally the same state as applying it once; for
any state whose scheduler handle is coherent with its pending request, one
stop lands in the Idle session view (not recording, no pending frame, no
stream, no source); a stop issued in the Idle view changes nothing of the
variant 1 state and nothing of the variant 2 session view. -/
theorem c6_stop_idempotent (s1 : V1.State) (s2 : V2.State)
    (h1 : s1.animation = 0 → s1.pending = none)
    (h2 : s2.animationFrameId = none → s2.pending = none) :
    V1.stopVisualization (V1.stopVisualization s1) = V1.stopVisualization s1 ∧
    V2.stopRecording (V2.stopRecording s2) = V2.stopRecording s2 ∧
    V1.sessionView (V1.stopVisualization s1) = (false, none, none, none) ∧
    V2.sessionView (V2.stopRecording s2) = (false, none, none, none) ∧
    (V1.sessionView s1 = (false, none, none, none) → V1.stopVisualization s1 = s1) ∧
    (V2.sessionView s2 = (false, none, none, none) →
      V2.sessionView (V2.stopRecording s2) = V2.sessionView s2) := by
  refine ⟨?_, ?_, ?_, ?_, ?_, ?_⟩
  · unfold V1.stopVisualization
    cases s1
    simp_all
  · unfold V2.stopRecording
    cases s2
    simp_all
  · unfold V1.sessionView V1.stopVisualization
    by_cases ha : s1.animation = 0
    · simp [ha, h1 ha]
    · simp [ha]
  · unfold V2.sessionView V2.stopRecording
    cases ha : s2.animationFrameId
    · simp [h2 ha]
    · simp
  · intro hidle
    unfold V1.sessionView at hidle
    simp only [Prod.mk.injEq] at hidle
    obtain ⟨ha, hb, hc, hd⟩ := hidle
    unfold V1.stopVisualization
    cases s1
    simp_all
  · intro hidle
    unfold V2.sessionView at hidle ⊢
    simp only [Prod.mk.injEq] at hidle
    obtain ⟨ha, hb, hc, hd⟩ := hidle
    unfold V2.stopRecording
    simp_all

/-- C6 witness: the idempotence and no-op facts at the initial states of
both variants. -/
theorem c6_stop_idempotent_witness :
    V1.stopVisualization (V1.stopVisualization V1.init) = V1.stopVisualization V1.init ∧
    V2.stopRecording (V2.stopRecording V2.init) = V2.stopRecording V2.init ∧
    V1.sessionView (V1.stopVisualization V1.init) = (false, none, none, none) ∧
    V2.sessionView (V2.stopRecording V2.init) = (false, none, none, none) ∧
    V1.stopVisualization V1.init = V1.init ∧
    V2.sessionView (V2.stopRecording V2.init) = V2.sessionView V2.init := by
  have h := c6_stop_idempotent V1.init V2.init (fun _ => rfl) (fun _ => rfl)
  exact ⟨h.1, h.2.1, h.2.2.1, h.2.2.2.1, h.2.2.2.2.1 rfl, h.2.2.2.2.2 rfl⟩

/-- C4 (amended): in variant 1 the frame callback reads
visualizationTypeRef.current afresh on every cycle: it reads the frequency
buffer exactly when that current style is the bar style and the time-domain
buffer otherwise, dispatches to the transform of that current style, and
always queues the next frame; a style change touches only the style ref, so
the loop is neither stopped nor restarted and the very next frame dispatches
to the new style. In variant 2 the frame callback always reads the frequency
buffer, whatever the style, and dispatches on the style captured when the
loop started, so a style change takes effect only after a restart. -/
theorem c4_style_binding (env : V1.FrameEnv) (g : ℚ × ℚ) (fault : Option String)
    (s : V1.State) (st : Style1) (st2 : Style2) (rect g2 : ℚ × ℚ) (s2 : V2.State) :
    (V1.draw env g fault s).2.readKind
        = some (if s.styleRef = Style1.bar then ReadKind.freqDomain else ReadKind.timeDomain) ∧
    (V1.draw env g fault s).2.dispatched = some s.styleRef ∧
    (V1.draw env g fault s).2.scheduledNext = true ∧
    (V1.setVisualizationType st s).pending = s.pending ∧
    (V1.setVisualizationType st s).stream = s.stream ∧
    (V1.setVisualizationType st s).isRecording = s.isRecording ∧
    (V1.draw env g fault (V1.setVisualizationType st s)).2.dispatched = some st ∧
    (V2.drawFrame (V2.draw rect st2 true) g2 fault s2).2.readKind = some ReadKind.freqDomain ∧
    (V2.drawFrame (V2.draw rect st2 true) g2 fault s2).2.dispatched = some st2 := by
  refine ⟨rfl, rfl, rfl, rfl, rfl, rfl, rfl, ?_, ?_⟩ <;>
    cases fault <;> simp [V2.drawFrame, V2.draw]

/-- C4 counterexample: a variant 2 frame whose captured and current style is
the straight waveform style still reads the frequency-domain buffer, not the
time-domain buffer the claim requires for non-bar styles. -/
theorem c4_reads_frequency_for_straight :
    (V2.drawFrame (V2.draw (800, 400) Style2.straight true) (800, 400) none
        (V2.startRecording none V2.init).1).2.readKind ≠ some ReadKind.timeDomain := by
  simp [V2.drawFrame, V2.draw]

/-- C7 (amended): both variants read the surface geometry once, when the
render loop starts (variant 1 reads canvas.width and canvas.height in
visualize, variant 2 reads getBoundingClientRect in draw), and every frame
hands that cached geometry to its transform: the frame output is entirely
independent of the geometry current at frame time, so a geometry change
between frames is not reflected until the loop is restarted. -/
theorem c7_geometry_cached (g0 g g2 : ℚ × ℚ) (n : ℕ) (fault : Option String)
    (s : V1.State) (rect gg gg2 : ℚ × ℚ) (st : Style2) (r : Bool) (s2 : V2.State) :
    (V1.draw (V1.visualize g0 n) g fault s).2.geometryUsed = some g0 ∧
    V1.draw (V1.visualize g0 n) g fault s = V1.draw (V1.visualize g0 n) g2 fault s ∧
    (V2.drawFrame (V2.draw rect st true) gg fault s2).2.geometryUsed = some rect ∧
    V2.drawFrame (V2.draw rect st r) gg fault s2
      = V2.drawFrame (V2.draw rect st r) gg2 fault s2 := by
  refine ⟨?_, rfl, ?_, rfl⟩
  · simp [V1.draw, V1.visualize]
  · cases fault <;> simp [V2.drawFrame, V2.draw]

/-- C7 counterexample: a variant 1 loop started on an 800 by 400 canvas
keeps handing 800 by 400 to the transforms even when the frame fires with
the canvas at 100 by 100, against the claim that the geometry is re-read at
the top of each cycle. -/
theorem c7_geometry_not_reread :
    (V1.draw (V1.visualize (800, 400) 1024) (100, 100) none
        (V1.startVisualization none V1.init).1).2.geometryUsed
      ≠ some ((100 : ℚ), (100 : ℚ)) := by
  decide

/-- C8 (amended): in both variants a getUserMedia failure during start
aborts the attempt and is caught (the modelled start functions are total in
the failure outcome, so nothing propagates): the recording flag, stream and
pending frame of variant 1 are left exactly as they were, and variant 2 ends
not recording with no stream, no source, no pending frame and no new stream
opened. Variant 2 surfaces the human-readable message through its debug
string; variant 1 only logs to the console and surfaces nothing to the
presentation layer. -/
theorem c8_start_failure (msg : String) (s1 : V1.State) (s2 : V2.State)
    (hd : s2.deviceSelected = true)
    (hc : s2.animationFrameId = none → s2.pending = none) :
    ((V1.startVisualization (some msg) s1).1.isRecording = s1.isRecording ∧
      (V1.startVisualization (some msg) s1).1.stream = s1.stream ∧
      (V1.startVisualization (some msg) s1).1.pending = s1.pending ∧
      (V1.startVisualization (some msg) s1).1.opens = s1.opens ∧
      surfacedDiagnostics (V1.startVisualization (some msg) s1).2 = []) ∧
    ((V2.startRecording (some msg) s2).1.isRecording = false ∧
      (V2.startRecording (some msg) s2).1.stream = none ∧
      (V2.startRecording (some msg) s2).1.source = none ∧
      (V2.startRecording (some msg) s2).1.pending = none ∧
      (V2.startRecording (some msg) s2).1.opens = s2.opens ∧
      UEffect.setDebugInfo ("Error starting recording: " ++ msg)
        ∈ (V2.startRecording (some msg) s2).2) := by
  constructor
  · cases hm : s1.micSelected <;>
      simp [V1.startVisualization, hm, surfacedDiagnostics]
  · cases ha : s2.animationFrameId with
    | none => simp [V2.startRecording, V2.stopRecording, hd, ha, hc ha]
    | some v => simp [V2.startRecording, V2.stopRecording, hd, ha]

/-- C8 witness: the failure facts at a concrete permission error against the
initial states. -/
theorem c8_start_failure_witness :
    (V2.startRecording (some "NotAllowedError") V2.init).1.isRecording = false ∧
    surfacedDiagnostics (V1.startVisualization (some "NotAllowedError") V1.init).2 = [] :=
  ⟨(c8_start_failure "NotAllowedError" V1.init V2.init rfl (fun _ => rfl)).2.1,
    (c8_start_failure "NotAllowedError" V1.init V2.init rfl (fun _ => rfl)).1.2.2.2.2⟩

/-- C8 counterexample: when getUserMedia throws a permission error, variant 1
catches it and emits only a console effect: no diagnostic string reaches the
presentation layer, against the claim that one is surfaced there. -/
theorem c8_no_presentation_diagnostic :
    surfacedDiagnostics (V1.startVisualization (some "NotAllowedError") V1.init).2 = [] ∧
    (V1.startVisualization (some "NotAllowedError") V1.init).2 ≠ [] := by
  constructor <;> simp [V1.startVisualization, surfacedDiagnostics, V1.init]

/-- C9 (amended): in variant 2 a transform exception during an active frame
is caught: the controller performs stopRecording (not recording, stream and
source released, animation frame id cancelled), does not queue a next frame,
lets nothing propagate and logs a diagnostic. In variant 1 there is no
handler: the exception escapes the frame callback, the recording flag is
untouched and the next frame was already queued before the transform ran, so
the loop keeps scheduling. -/
theorem c9_transform_fault (rect g g1 : ℚ × ℚ) (st : Style2) (msg : String)
    (s2 : V2.State) (env : V1.FrameEnv) (s1 : V1.State) :
    ((V2.drawFrame (V2.draw rect st true) g (some msg) s2).1.isRecording = false ∧
      (V2.drawFrame (V2.draw rect st true) g (some msg) s2).1.stream = none ∧
      (V2.drawFrame (V2.draw rect st true) g (some msg) s2).1.source = none ∧
      (V2.drawFrame (V2.draw rect st true) g (some msg) s2).1.animationFrameId = none ∧
      (V2.drawFrame (V2.draw rect st true) g (some msg) s2).2.scheduledNext = false ∧
      (V2.drawFrame (V2.draw rect st true) g (some msg) s2).2.propagated = none ∧
      UEffect.consoleError "Error in visualization:"
        ∈ (V2.drawFrame (V2.draw rect st true) g (some msg) s2).2.effects) ∧
    ((V1.draw env g1 (some msg) s1).2.propagated = some msg ∧
      (V1.draw env g1 (some msg) s1).2.scheduledNext = true ∧
      (V1.draw env g1 (some msg) s1).1.isRecording = s1.isRecording ∧
      (V1.draw env g1 (some msg) s1).1.pending = some s1.nextId) := by
  refine ⟨⟨?_, ?_, ?_, ?_, ?_, ?_, ?_⟩, rfl, rfl, rfl, rfl⟩ <;>
    simp [V2.drawFrame, V2.draw, V2.stopRecording]

/-- C9 counterexample: in variant 1 a transform exception in an active frame
escapes the controller with the next frame already queued, against the claim
that the exception never propagates and the loop stops scheduling. -/
theorem c9_fault_propagates :
    (V1.draw (V1.visualize (800, 400) 1024) (800, 400) (some "boom")
        (V1.startVisualization none V1.init).1).2.propagated = some "boom" ∧
    (V1.draw (V1.visualize (800, 400) 1024) (800, 400) (some "boom")
        (V1.startVisualization none V1.init).1).2.scheduledNext = true :=
  ⟨rfl, rfl⟩

end Vocalized
